import Mathlib

/-!
Verification of the runtime-argument resolution subsystem of the devito
repository (files `devito/arguments.py`, `devito/dimension.py`,
`devito/grid.py`).

The Python classes are shallowly embedded as Lean structures holding the
mutable attributes, and their methods as pure functions returning the
updated state.  Python `None` is `Option.none`; a Python exception
(RecursionError, ValueError, AttributeError) surfacing from an embedded
method is an `Option.none` result.

One fact about this snapshot of the source shapes the whole dimension
side of the development: `DimensionArgProvider.rtargs` (arguments.py
lines 164-171) begins by reading `self.size`, and `OpenDimension.size`
(dimension.py lines 65-68) begins by reading `self.rtargs` back.  The
`cached_property` decorator stores its result only after the wrapped
function returns, so the first access to either attribute on any open
`Dimension` recurses without bound and raises `RecursionError`; the
cache is never filled.  This mutual recursion is embedded below as a
fuel-indexed pair of functions (`rtargsF`, `openSizeF`), and
`dim_size_recursion_diverges` proves that no amount of fuel produces a
value --- the faithful rendering of the unbounded recursion.  Every
method that reads `self.size` or `self.rtargs` on an open dimension
(`verify` at line 193, `ccode` at line 176) inherits this behaviour.
On the statically-sized side, dimension.py line 2 imports
`FixedDimensionArgProvider` from `devito.arguments`, which defines no
such class, so `FixedDimension` has no argument-provider behaviour at
all (see `fixed_dimension_mixin_missing`).

Dimension objects are shared by reference between tensor arguments in
the source, so the embedding threads an explicit heap (a `List OpenDim`)
through `TensorArgument.verifyF`; `source.indices` holds positions into
that heap.
-/

/-- Embeds `ScalarArgument` (arguments.py lines 51-76): the attributes set
in `RuntimeArgument.__init__` / `ScalarArgument.__init__` that the claims
touch.  `source` is a non-owning back-reference that never influences the
scalar methods, so it is not carried. -/
structure ScalarArgument where
  name : String
  reducer : Int → Int → Int
  default_value : Option Int
  _value : Option Int

/-- `ScalarArgument.verify` (arguments.py lines 69-76): merge a new
observation into the held value via `reducer`; report readiness. -/
def ScalarArgument.verify (a : ScalarArgument) (value : Option Int) :
    ScalarArgument × Bool :=
  match value with
  | none => (a, a._value.isSome)
  | some v =>
    match a._value with
    | some cur =>
      let a1 := { a with _value := some (a.reducer cur v) }
      (a1, a1._value.isSome)
    | none =>
      let a1 := { a with _value := some v }
      (a1, a1._value.isSome)

/-- `RuntimeArgument.reset` (arguments.py lines 44-45). -/
def ScalarArgument.reset (a : ScalarArgument) : ScalarArgument :=
  { a with _value := a.default_value }

/-- `RuntimeArgument.ready` (arguments.py lines 32-34). -/
def ScalarArgument.ready (a : ScalarArgument) : Bool :=
  a._value.isSome

/-- What a dimension's `size` read can produce: `FixedDimension.size` is a
stored integer attribute; `OpenDimension.size`, were it ever to return,
would yield a sympy `Symbol` (modelled by its name). -/
inductive DimSizeVal where
  | static (n : Int)
  | symbolic (s : String)
deriving DecidableEq

mutual

/-- `DimensionArgProvider.rtargs` (arguments.py lines 164-171) on an open
dimension named `n`, with an explicit fuel bound on the Python call
stack; `none` is `RecursionError`.  The body first evaluates `self.size`
(the `OpenDimension.size` property, `openSizeF`).  Were that read ever to
return, it would return a sympy `Symbol` --- never Python `None` --- so
the `self.size is not None` branch would yield `[]`; the branch building
the `"{n}_size"` `ScalarArgument` is unreachable.  The `cached_property`
wrapper stores a result only after this body returns, which it never
does, so no cache state needs to be carried. -/
def rtargsF (n : String) : Nat → Option (List ScalarArgument)
  | 0 => none
  | fuel + 1 =>
    match openSizeF n fuel with
    | none => none
    | some _ => some []

/-- `OpenDimension.size` (dimension.py lines 65-68) with a fuel bound:
`_, end = self.rtargs` reads the `rtargs` property back (`rtargsF`), and
would then need to unpack exactly two items --- `rtargs` can only ever
produce zero or one, so even a returning `rtargs` would end in a
`ValueError` (`none`) here. -/
def openSizeF (n : String) : Nat → Option DimSizeVal
  | 0 => none
  | fuel + 1 =>
    match rtargsF n fuel with
    | none => none
    | some l =>
      match l with
      | [_, e] => some (DimSizeVal.symbolic e.name)
      | _ => none

end

/-- The mutual `rtargs`/`size` recursion never returns: for every fuel
bound both accesses end in an error, the embedding of the
`RecursionError` raised on first access in the source. -/
theorem dim_size_recursion_diverges (n : String) : ∀ fuel : Nat,
    rtargsF n fuel = none ∧ openSizeF n fuel = none := by
  intro fuel
  induction fuel with
  | zero => exact ⟨rfl, rfl⟩
  | succ k ih =>
    refine ⟨?_, ?_⟩
    · simp [rtargsF, ih.2]
    · simp [openSizeF, ih.1]

/-- State of one constructible dimension object: open `Dimension`s are
the only dimension kind that can exist at runtime (`FixedDimension`'s
mixin is missing, see `fixed_dimension_mixin_missing`).  They carry a
name and the `DimensionArgProvider._value` slot (arguments.py line 150),
initialised `None` --- and, as proved below, never changed, because every
`verify` call dies at the `self.size` read before the assignment on line
213. -/
structure OpenDim where
  name : String
  _value : Option Int
deriving DecidableEq

/-- `DimensionArgProvider.verify` (arguments.py lines 184-214) on an open
dimension, fuel-bounded.  The two early returns (lines 187-191) run
before any `size` read; past them, line 193 evaluates `self.size`, which
raises (`openSizeF` has no value --- `dim_size_recursion_diverges`).  The
`some` arm of that read is therefore unreachable and its sympy
relational semantics (`value >= Symbol`) is not modelled further. -/
def dimVerifyF (d : OpenDim) (value : Option Int) (fuel : Nat) :
    Option (OpenDim × Bool) :=
  if value = none ∧ d._value ≠ none then
    some (d, true)
  else if value ≠ none ∧ value = d._value then
    some (d, true)
  else
    match openSizeF d.name fuel with
    | none => none
    | some _ => none

/-- Claim C5 evidence: on any constructible open dimension (whose
`_value` is its initial `None`), every `verify` call --- with or without
an observation --- raises at the `self.size` read on line 193; `_value`
can never be set, so no sequence of observations resolves to anything,
let alone the running maximum. -/
theorem open_dim_verify_always_raises (n : String) (value : Option Int)
    (fuel : Nat) :
    dimVerifyF ⟨n, none⟩ value fuel = none := by
  rcases h : openSizeF n fuel with _ | s <;>
    rcases value with _ | v <;>
      simp [dimVerifyF, h]

/-- Claim C3 evidence: `rtargs` never returns on an open dimension ---
in particular it never produces the single `"{n}_size"` `ScalarArgument`
the specification describes --- and the `size` read it is entangled with
never returns either, so the `cached_property` cache is never filled. -/
theorem dim_rtargs_never_returns (n : String) (fuel : Nat) :
    rtargsF n fuel = none ∧ openSizeF n fuel = none ∧
    rtargsF n fuel ≠ some [⟨n ++ "_size", max, none, none⟩] := by
  refine ⟨(dim_size_recursion_diverges n fuel).1,
    (dim_size_recursion_diverges n fuel).2, ?_⟩
  rw [(dim_size_recursion_diverges n fuel).1]
  intro h
  exact Option.noConfusion h

/-- The class names defined at module level in `devito/arguments.py`. -/
def argumentsModuleExports : List String :=
  ["RuntimeArgument", "ScalarArgument", "TensorArgument",
   "RuntimeArgProvider", "DimensionArgProvider",
   "SymbolicDataArgProvider", "ScalarFunctionArgProvider",
   "TensorFunctionArgProvider"]

/-- The names `devito/dimension.py` line 2 imports from
`devito.arguments`. -/
def dimensionModuleImports : List String :=
  ["DimensionArgProvider", "FixedDimensionArgProvider"]

/-- Claim C6 evidence: `dimension.py` imports `FixedDimensionArgProvider`
from `devito.arguments`, which defines no such class --- the import of
the dimension module fails, so no dimension with a statically declared
integer size ever inherits `DimensionArgProvider.verify`, and the
`value >= self.size` floor check (arguments.py lines 193-196) is dead
code. -/
theorem fixed_dimension_mixin_missing :
    "FixedDimensionArgProvider" ∈ dimensionModuleImports ∧
    "FixedDimensionArgProvider" ∉ argumentsModuleExports := by
  constructor
  · decide
  · decide

/-- A runtime tensor value.  Only its shape takes part in verification:
`srcRef` is the symbolic source object itself (the self-referential
default installed by `TensorArgument.__init__`, arguments.py line 88),
`arr s` is an ndarray of shape `s`. -/
inductive TVal where
  | srcRef
  | arr (shape : List Int)
deriving DecidableEq

/-- The symbolic data object a `TensorArgument` is built from: its declared
`shape` and its `indices`, the index dimensions as positions into the
shared dimension heap. -/
structure TensorSource where
  shape : List Int
  indices : List Nat
deriving DecidableEq

/-- Embeds `TensorArgument` (arguments.py lines 79-123). -/
structure TensorArgument where
  name : String
  source : TensorSource
  dtype : String
  default_value : Option TVal
  _value : Option TVal
deriving DecidableEq

/-- The `.shape` of a runtime tensor value relative to the argument's
source. -/
def tvShape (src : TensorSource) : TVal → List Int
  | .srcRef => src.shape
  | .arr s => s

/-- `TensorArgument.__init__` (arguments.py lines 85-88):
`self._value = self._default_value = self.source`. -/
def TensorArgument.init (name : String) (src : TensorSource)
    (dtype : String) : TensorArgument :=
  ⟨name, src, dtype, some TVal.srcRef, some TVal.srcRef⟩

/-- `RuntimeArgument.reset` as inherited by `TensorArgument`. -/
def TensorArgument.reset (t : TensorArgument) : TensorArgument :=
  { t with _value := t.default_value }

/-- `RuntimeArgument.ready` as inherited by `TensorArgument`. -/
def TensorArgument.ready (t : TensorArgument) : Bool :=
  t._value.isSome

/-- The per-dimension pass of `TensorArgument.verify` (arguments.py lines
118-119): the list comprehension
`[d.verify(v) for d, v in zip(self.source.indices, value.shape)]`
evaluates `d.verify(v)` pair by pair; the first raised exception
(`none`) aborts the whole comprehension and propagates. -/
def verifyDimsF (env : List OpenDim) (fuel : Nat) :
    List (Nat × Int) → Option (List OpenDim × Bool)
  | [] => some (env, true)
  | (i, v) :: rest =>
    match dimVerifyF (env.getD i ⟨"", none⟩) (some v) fuel with
    | none => none
    | some (d1, b) =>
      match verifyDimsF (env.set i d1) fuel rest with
      | none => none
      | some (env1, b1) => some (env1, b && b1)

/-- `TensorArgument.verify` (arguments.py lines 112-123), fuel-bounded.
The `and` on line 118 short-circuits: when the shape equality fails the
per-dimension pass is never run, the heap is untouched and the method
returns `self._value is not None and verify`.  When the shape check
passes, the per-dimension pass runs and any exception raised inside it
(for constructible dimensions: always, on the first pair) propagates
out as `none`, before the commit on line 121. -/
def TensorArgument.verifyF (env : List OpenDim) (t : TensorArgument)
    (value : Option TVal) (fuel : Nat) :
    Option (List OpenDim × TensorArgument × Bool) :=
  let v? : Option TVal :=
    match value with
    | none => t._value
    | some v => some v
  match v? with
  | none => none
  | some v =>
    if t.source.shape = tvShape t.source v then
      match verifyDimsF env fuel (t.source.indices.zip (tvShape t.source v)) with
      | none => none
      | some (env1, allOk) =>
        let t1 := if allOk then { t with _value := some v } else t
        some (env1, t1, t1._value.isSome && allOk)
    else
      some (env, t, t._value.isSome && false)

/-- Claim C1 evidence: the shape-mismatch path is real and returns false
with nothing mutated (first conjunct: tensor `u`, declared shape `(40,)`,
verified with a `(41,)` ndarray); but as soon as the shape check passes
and the tensor has an index dimension, the call raises inside the
per-dimension pass (second conjunct: the same tensor verified with a
matching `(40,)` ndarray) --- it never returns the claimed boolean
verdict at all. -/
theorem tensor_verify_shape_gate_and_crash :
    (∀ fuel : Nat,
      TensorArgument.verifyF [⟨"x", none⟩]
        ⟨"u", ⟨[40], [0]⟩, "float", some TVal.srcRef, some TVal.srcRef⟩
        (some (TVal.arr [41])) fuel
      = some ([⟨"x", none⟩],
              ⟨"u", ⟨[40], [0]⟩, "float", some TVal.srcRef,
               some TVal.srcRef⟩, false)) ∧
    (∀ fuel : Nat,
      TensorArgument.verifyF [⟨"x", none⟩]
        ⟨"u", ⟨[40], [0]⟩, "float", some TVal.srcRef, some TVal.srcRef⟩
        (some (TVal.arr [40])) fuel = none) := by
  constructor
  · intro fuel
    rfl
  · intro fuel
    have h := (dim_size_recursion_diverges "x" fuel).2
    simp [TensorArgument.verifyF, verifyDimsF, dimVerifyF, tvShape,
      List.getD, h]

/-- Claim C2 evidence: in the shared-dimension scenario (tensor `A` of
declared shape `(40,)` and tensor `B` of declared shape `(50,)`, both
indexed by the open dimension `x`), verifying either tensor with an
ndarray of its own declared shape raises inside `x.verify` --- neither
verification ever succeeds and `x._value` never becomes 50. -/
theorem shared_dim_scenario_raises :
    (∀ fuel : Nat,
      TensorArgument.verifyF [⟨"x", none⟩]
        (TensorArgument.init "A" ⟨[40], [0]⟩ "float")
        (some (TVal.arr [40])) fuel = none) ∧
    (∀ fuel : Nat,
      TensorArgument.verifyF [⟨"x", none⟩]
        (TensorArgument.init "B" ⟨[50], [0]⟩ "float")
        (some (TVal.arr [50])) fuel = none) := by
  constructor <;>
    · intro fuel
      have h := (dim_size_recursion_diverges "x" fuel).2
      simp [TensorArgument.verifyF, TensorArgument.init, verifyDimsF,
        dimVerifyF, tvShape, List.getD, h]

/-- Claim C4: the full `ScalarArgument` contract: `verify(None)` is a
no-op returning current readiness; `verify(v)` adopts `v` with no prior
value and merges via `reducer(current, v)` otherwise, returning true iff
the resulting value is non-null; on a fresh argument two verifications
yield `reducer(v1, v2)`; `reset` restores `default_value` and is
idempotent. -/
theorem scalar_argument_contract (a : ScalarArgument) :
    (a.verify none = (a, a._value.isSome)) ∧
    (∀ v : Int,
      (a.verify (some v)).1._value
          = some (match a._value with
                  | some cur => a.reducer cur v
                  | none => v) ∧
      (a.verify (some v)).2 = true) ∧
    (∀ v1 v2 : Int, a._value = none →
      ((a.verify (some v1)).1.verify (some v2)).1._value
        = some (a.reducer v1 v2)) ∧
    (∀ v : Option Int, (a.verify v).2 = (a.verify v).1._value.isSome) ∧
    ((a.reset)._value = a.default_value) ∧
    (a.reset.reset = a.reset) := by
  refine ⟨rfl, ?_, ?_, ?_, rfl, rfl⟩
  · intro v
    cases h : a._value <;> simp [ScalarArgument.verify, h]
  · intro v1 v2 h
    simp [ScalarArgument.verify, h]
  · intro v
    cases v with
    | none => rfl
    | some v => cases h : a._value <;> simp [ScalarArgument.verify, h]

/-- Witness for C4 at a concrete fresh argument with the `max` reducer. -/
theorem scalar_argument_contract_witness :
    ((ScalarArgument.verify
        (ScalarArgument.verify ⟨"v", max, none, none⟩ (some 3)).1
        (some 5)).1)._value = some (max 3 5) :=
  (scalar_argument_contract ⟨"v", max, none, none⟩).2.2.1 3 5 rfl

/-- A symbolic expression over dimensions, enough for
`LoweredDimension.origin = self.buffered + self.offset`
(dimension.py lines 134-136). -/
inductive PyDim where
  | fixedDim (name : String) (size : Int) (rev : Bool)
  | openDim (name : String) (rev : Bool) (rtvalue : Option Int)
  | bufferedDim (name : String) (parent : PyDim) (modulo : Int)
  | loweredDim (name : String) (buffered : PyDim) (offset : Int)

/-- Symbolic expressions over dimensions (sympy `Add` of a dimension
symbol and an integer). -/
inductive SymExpr where
  | dimRef (d : PyDim)
  | addConst (e : SymExpr) (k : Int)

/-- `reverse` across the dimension hierarchy: a stored attribute on
fixed/open dimensions; `BufferedDimension.reverse` (dimension.py lines
110-112) returns `self.parent.reverse`; `LoweredDimension.reverse`
(lines 142-144) returns `self.buffered.reverse`.  These are plain
attribute reads, free of the `rtargs`/`size` recursion, and execute for
real. -/
def PyDim.reverse : PyDim → Bool
  | .fixedDim _ _ r => r
  | .openDim _ r _ => r
  | .bufferedDim _ p _ => p.reverse
  | .loweredDim _ b _ => b.reverse

/-- `LoweredDimension.origin` (dimension.py lines 134-136): the buffered
dimension plus the offset; no other dimension kind has an origin. -/
def PyDim.origin : PyDim → Option SymExpr
  | .loweredDim _ b off => some (SymExpr.addConst (SymExpr.dimRef b) off)
  | _ => none

/-- `size` across the hierarchy, fuel-bounded: `FixedDimension.size` is a
stored attribute (though no `FixedDimension` is constructible, see
`fixed_dimension_mixin_missing`); `OpenDimension.size` is the diverging
property (`openSizeF`); `BufferedDimension.size` (dimension.py lines
106-108) returns `self.parent.size` and `LoweredDimension.size` (lines
138-140) returns `self.buffered.size` --- literal delegation, so the
query raises exactly when the ancestor's does. -/
def PyDim.sizeF : PyDim → Nat → Option DimSizeVal
  | .fixedDim _ s _, _ => some (DimSizeVal.static s)
  | .openDim n _ _, fuel => openSizeF n fuel
  | .bufferedDim _ p _, fuel => p.sizeF fuel
  | .loweredDim _ b _, fuel => b.sizeF fuel

/-- Claim C7 evidence: `BufferedDimension` and `LoweredDimension` hold no
independent state --- their `reverse`, `size` and `origin` are literal
delegations to the `parent`/`buffered` ancestor (first two conjunct
groups).  But the `size` query itself never produces a value on any
constructible chain: its base is an open `Dimension`, whose `size` read
raises (last conjunct), so the claimed size equality never compares two
values in the program, and the parent can never be "re-verified" (its
`verify` raises too, `open_dim_verify_always_raises`). -/
theorem buffered_lowered_delegation_results :
    (∀ (n : String) (p : PyDim) (m : Int),
      (PyDim.bufferedDim n p m).reverse = p.reverse ∧
      (∀ fuel : Nat,
        (PyDim.bufferedDim n p m).sizeF fuel = p.sizeF fuel)) ∧
    (∀ (n : String) (b : PyDim) (off : Int),
      (PyDim.loweredDim n b off).reverse = b.reverse ∧
      (∀ fuel : Nat,
        (PyDim.loweredDim n b off).sizeF fuel = b.sizeF fuel) ∧
      (PyDim.loweredDim n b off).origin
        = some (SymExpr.addConst (SymExpr.dimRef b) off)) ∧
    (∀ (n : String) (r : Bool) (dv : Option Int) (fuel : Nat),
      (PyDim.openDim n r dv).sizeF fuel = none) := by
  refine ⟨fun _ _ _ => ⟨rfl, fun _ => rfl⟩,
    fun _ _ _ => ⟨rfl, fun _ => rfl, rfl⟩, ?_⟩
  intro n r dv fuel
  simpa [PyDim.sizeF] using (dim_size_recursion_diverges n fuel).2

/-- `extent or tuple(1. for _ in shape)` (grid.py line 24): a falsy
extent (absent or empty) defaults to a unit box, one `1.0` per shape
entry. -/
def extentNorm (shape : List Nat) : Option (List ℚ) → List ℚ
  | none => shape.map fun _ => (1 : ℚ)
  | some [] => shape.map fun _ => (1 : ℚ)
  | some e => e

/-- `origin or tuple(0. for _ in shape)` (grid.py line 25). -/
def originNorm (shape : List Nat) : Option (List ℚ) → List ℚ
  | none => shape.map fun _ => (0 : ℚ)
  | some [] => shape.map fun _ => (0 : ℚ)
  | some o => o

/-- `dimensions or (x, y, z)` (grid.py line 31): the default pool is the
module-level spatial dimensions `x`, `y`, `z` of dimension.py. -/
def dimPool : Option (List String) → List String
  | none => ["x", "y", "z"]
  | some [] => ["x", "y", "z"]
  | some ds => ds

/-- Embeds `Grid` (grid.py lines 9-46); numeric extent/origin values are
carried as rationals. -/
structure Grid where
  shape : List Nat
  extent : List ℚ
  origin : List ℚ
  dimensions : List String
deriving DecidableEq

/-- `Grid.spacing` (grid.py lines 38-41): the elementwise quotient
`extent / shape`. -/
def spacingOf (extent : List ℚ) (shape : List Nat) : List ℚ :=
  List.zipWith (fun e s => e / s) extent (shape.map fun n : Nat => (n : ℚ))

/-- `Grid.spacing` as a property of the constructed grid. -/
def Grid.spacing (g : Grid) : List ℚ :=
  spacingOf g.extent g.shape

/-- `Grid.__init__` (grid.py lines 22-31): normalise extent/origin,
check `self.dim == len(origin) == len(extent) == len(spacing)` (`none`
when the assertion fails), and slice the provided or default dimension
pool to the first `len(shape)` entries. -/
def mkGrid (shape : List Nat) (extent? origin? : Option (List ℚ))
    (dims? : Option (List String)) : Option Grid :=
  let extent := extentNorm shape extent?
  let origin := originNorm shape origin?
  if shape.length = origin.length ∧ origin.length = extent.length ∧
      extent.length = (spacingOf extent shape).length then
    some ⟨shape, extent, origin, (dimPool dims?).take shape.length⟩
  else
    none

/-- Counterexample to claim C8 as stated: a four-dimensional shape with
the default three-element pool `(x, y, z)` constructs successfully but
selects only three axis dimensions, not `len(shape) = 4`. -/
theorem grid_dim_selection_counterexample :
    (mkGrid [2, 2, 2, 2] none none none).map (fun g => g.dimensions.length)
      = some 3 ∧ (3 : Nat) ≠ ([2, 2, 2, 2] : List Nat).length := by
  refine ⟨?_, by decide⟩
  rfl

/-- Claim C8 (amended): `Grid` construction succeeds exactly when
`len(shape) == len(origin) == len(extent)` (after defaulting), derives
`spacing` as the elementwise quotient `extent / shape`, and selects the
first `min(len(shape), len(pool))` dimensions of the provided or default
pool --- exactly `len(shape)` of them whenever the pool is large enough,
as in the 2-d default case; `Grid shape=(101,101)` with default extent
and origin has `spacing == (1/101, 1/101)` and exactly 2 axis
dimensions. -/
theorem grid_ctor_spec (shape : List Nat) (e? o? : Option (List ℚ))
    (d? : Option (List String)) :
    ((mkGrid shape e? o? d?).isSome ↔
      (shape.length = (originNorm shape o?).length ∧
       (originNorm shape o?).length = (extentNorm shape e?).length)) ∧
    (∀ g, mkGrid shape e? o? d? = some g →
      g.shape = shape ∧ g.extent = extentNorm shape e? ∧
      g.origin = originNorm shape o? ∧
      g.spacing = List.zipWith (fun a b => a / b) g.extent
          (g.shape.map fun n : Nat => (n : ℚ)) ∧
      g.dimensions = (dimPool d?).take shape.length ∧
      g.dimensions.length = min shape.length (dimPool d?).length ∧
      (shape.length ≤ (dimPool d?).length →
        g.dimensions.length = shape.length)) ∧
    (mkGrid [101, 101] none none none
        = some ⟨[101, 101], [1, 1], [0, 0], ["x", "y"]⟩ ∧
      Grid.spacing ⟨[101, 101], [1, 1], [0, 0], ["x", "y"]⟩
        = [1 / 101, 1 / 101]) := by
  have hlen : ∀ (e : List ℚ),
      (spacingOf e shape).length = min e.length shape.length := by
    intro e
    simp only [spacingOf, List.length_zipWith, List.length_map]
  refine ⟨?_, ?_, ?_, ?_⟩
  · constructor
    · intro hs
      unfold mkGrid at hs
      dsimp only at hs
      split at hs
      · rename_i hc
        exact ⟨hc.1, hc.2.1⟩
      · simp at hs
    · rintro ⟨hA, hB⟩
      unfold mkGrid
      dsimp only
      rw [if_pos]
      · simp
      · refine ⟨hA, hB, ?_⟩
        rw [hlen]
        omega
  · intro g hg
    unfold mkGrid at hg
    dsimp only at hg
    split at hg
    · injection hg with hg
      subst hg
      refine ⟨rfl, rfl, rfl, rfl, rfl, ?_, ?_⟩
      · simp
      · intro hle
        simp only [List.length_take]
        omega
    · simp at hg
  · rfl
  · rfl

/-- Witness for the amended C8: the default 2-d grid `shape=(101,101)`
really selects exactly `len(shape)` axis dimensions. -/
theorem grid_ctor_spec_witness :
    (⟨[101, 101], [1, 1], [0, 0], ["x", "y"]⟩ : Grid).dimensions.length
      = ([101, 101] : List Nat).length :=
  ((grid_ctor_spec [101, 101] none none none).2.1
      ⟨[101, 101], [1, 1], [0, 0], ["x", "y"]⟩
      (by rfl)).2.2.2.2.2.2 (by decide)

/-- A `cgen.Value(typename, name)` declaration descriptor. -/
structure CValue where
  ctype : String
  name : String
deriving DecidableEq

/-- `ScalarArgument.decl` (arguments.py lines 61-63):
`c.Value('const int', self.name)`. -/
def ScalarArgument.decl (a : ScalarArgument) : CValue :=
  ⟨"const int", a.name⟩

/-- `ScalarArgument.dtype` (arguments.py lines 65-67): always `np.int32`,
rendered here by its name. -/
def ScalarArgument.dtype (_a : ScalarArgument) : String :=
  "int32"

/-- `TensorArgument.decl` (arguments.py lines 97-99):
`c.Value(dtype_to_ctype(self.dtype), '*restrict %s_vec' % self.name)`.
The embedded `dtype` field already carries the C type name that
`cgen.dtype_to_ctype` would produce. -/
def TensorArgument.decl (t : TensorArgument) : CValue :=
  ⟨t.dtype, "*restrict " ++ t.name ++ "_vec"⟩

/-- `DimensionArgProvider.ccode` (arguments.py lines 173-176) on an open
dimension, fuel-bounded: the conditional expression evaluates
`self.size` first, which raises (`dim_size_recursion_diverges`); the
`some` arm --- where `size` returned a `Symbol`, `is None` is false, and
`"%d" % self.size` would raise a `TypeError` on the symbol --- is
unreachable and produces no string either. -/
def dimCcodeF (n : String) (fuel : Nat) : Option String :=
  match openSizeF n fuel with
  | none => none
  | some _ => none

/-- A `cgen.POD(dtype, name)` descriptor. -/
structure CPOD where
  dtype : String
  name : String
deriving DecidableEq

/-- A `cgen.Initializer(vdecl, data)` descriptor. -/
structure CInitializer where
  vdecl : CPOD
  data : String
deriving DecidableEq

/-- The shape comprehension of `ccast` (arguments.py line 104):
`["[%s]" % i.ccode for i in self.source.indices[1:]]` evaluated left to
right, aborting at the first raised `ccode`. -/
def dimCodesF (env : List OpenDim) (fuel : Nat) :
    List Nat → Option (List String)
  | [] => some []
  | i :: rest =>
    match dimCcodeF (env.getD i ⟨"", none⟩).name fuel with
    | none => none
    | some c =>
      match dimCodesF env fuel rest with
      | none => none
      | some cs => some (("[" ++ c ++ "]") :: cs)

/-- `TensorArgument.ccast` (arguments.py lines 101-110), fuel-bounded:
reinterpret the flat `{name}_vec` pointer as a 64-byte-aligned array
shaped by `self.source.indices[1:]`, each extent rendered with the
dimension's `ccode`. -/
def TensorArgument.ccastF (env : List OpenDim) (t : TensorArgument)
    (fuel : Nat) : Option CInitializer :=
  let alignment := "__attribute__((aligned(64)))"
  match dimCodesF env fuel (t.source.indices.drop 1) with
  | none => none
  | some codes =>
    let shape := String.join codes
    some ⟨⟨t.dtype,
           "(*restrict " ++ t.name ++ ")" ++ shape ++ " " ++ alignment⟩,
          "(" ++ t.dtype ++ " (*)" ++ shape ++ ") " ++ t.name ++ "_vec"⟩

/-- Claim C9 evidence: the declaration contracts are real --- a scalar
argument declares as `const int <name>` with dtype int32, a tensor
argument as `<ctype> *restrict <name>_vec`, and a tensor whose only
index is the leading one gets its cast with an empty shape (fourth
conjunct, an executable path).  But `ccode` never returns on an open
dimension (third conjunct), so `ccast` raises for every tensor with a
non-leading index dimension (last conjunct: a tensor over `(time, x)`)
and the claimed shaped rendering is never produced. -/
theorem decl_contract_and_ccast_crash (a : ScalarArgument)
    (t : TensorArgument) :
    a.decl = ⟨"const int", a.name⟩ ∧
    a.dtype = "int32" ∧
    t.decl = ⟨t.dtype, "*restrict " ++ t.name ++ "_vec"⟩ ∧
    (∀ (n : String) (fuel : Nat), dimCcodeF n fuel = none) ∧
    (∀ fuel : Nat,
      TensorArgument.ccastF []
        ⟨"v", ⟨[5], [0]⟩, "float", some TVal.srcRef, some TVal.srcRef⟩
        fuel
      = some ⟨⟨"float", "(*restrict v) __attribute__((aligned(64)))"⟩,
              "(float (*)) v_vec"⟩) ∧
    (∀ fuel : Nat,
      TensorArgument.ccastF [⟨"time", none⟩, ⟨"x", none⟩]
        ⟨"u", ⟨[3, 4], [0, 1]⟩, "float", some TVal.srcRef,
         some TVal.srcRef⟩ fuel = none) := by
  refine ⟨rfl, rfl, rfl, ?_, ?_, ?_⟩
  · intro n fuel
    unfold dimCcodeF
    cases openSizeF n fuel <;> rfl
  · intro fuel
    rfl
  · intro fuel
    have h : dimCcodeF "x" fuel = none := by
      unfold dimCcodeF
      cases openSizeF "x" fuel <;> rfl
    simp [TensorArgument.ccastF, dimCodesF, List.getD, h]

/-- One step of the lifecycle of a tensor argument: a `verify` call with
an arbitrary (possibly absent) runtime value, or a `reset`. -/
inductive TOp where
  | verifyOp (value : Option TVal)
  | resetOp

/-- Run a sequence of lifecycle operations on a tensor argument over the
shared dimension heap.  A raised exception in a `verify` call aborts the
sequence there; the returned state is the state at the abort (the final
flag records whether the whole sequence completed). -/
def trunF (fuel : Nat) : List TOp → List OpenDim → TensorArgument →
    List OpenDim × TensorArgument × Bool
  | [], env, t => (env, t, true)
  | TOp.verifyOp v :: ops, env, t =>
    match TensorArgument.verifyF env t v fuel with
    | none => (env, t, false)
    | some (env1, t1, _) => trunF fuel ops env1 t1
  | TOp.resetOp :: ops, env, t => trunF fuel ops env t.reset

/-- A returning `verify` call on a tensor argument whose `_value` is held
keeps `_value` held and leaves `default_value` alone (a commit stores
the non-`None` resolved value; a failure keeps the old state; an
exception does not return at all). -/
theorem tverifyF_preserves (env : List OpenDim) (t : TensorArgument)
    (value : Option TVal) (fuel : Nat) (env1 : List OpenDim)
    (t1 : TensorArgument) (b : Bool)
    (h : TensorArgument.verifyF env t value fuel = some (env1, t1, b))
    (hv : t._value.isSome = true) :
    t1._value.isSome = true ∧ t1.default_value = t.default_value := by
  unfold TensorArgument.verifyF at h
  rcases value with _ | v
  · rcases hvv : t._value with _ | w
    · simp [hvv] at h
    · simp only [hvv] at h
      split at h
      · rcases hd : verifyDimsF env fuel
            (t.source.indices.zip (tvShape t.source w)) with _ | p
        · simp [hd] at h
        · rcases p with ⟨e2, ok⟩
          simp only [hd] at h
          rcases ok with _ | _
          · simp only [if_neg (by simp : ¬ (false = true))] at h
            injection h with h1
            injection h1 with he h2
            injection h2 with ht hb
            subst ht
            exact ⟨by simp [hvv], rfl⟩
          · simp only [if_pos rfl] at h
            injection h with h1
            injection h1 with he h2
            injection h2 with ht hb
            subst ht
            exact ⟨rfl, rfl⟩
      · injection h with h1
        injection h1 with he h2
        injection h2 with ht hb
        subst ht
        exact ⟨by simp [hvv], rfl⟩
  · simp only at h
    split at h
    · rcases hd : verifyDimsF env fuel
          (t.source.indices.zip (tvShape t.source v)) with _ | p
      · simp [hd] at h
      · rcases p with ⟨e2, ok⟩
        simp only [hd] at h
        rcases ok with _ | _
        · simp only [if_neg (by simp : ¬ (false = true))] at h
          injection h with h1
          injection h1 with he h2
          injection h2 with ht hb
          subst ht
          exact ⟨hv, rfl⟩
        · simp only [if_pos rfl] at h
          injection h with h1
          injection h1 with he h2
          injection h2 with ht hb
          subst ht
          exact ⟨rfl, rfl⟩
    · injection h with h1
      injection h1 with he h2
      injection h2 with ht hb
      subst ht
      exact ⟨hv, rfl⟩

/-- Inductive invariant: an argument with a held `_value` and the
self-referential default keeps both through any operation sequence,
whether or not the sequence completes. -/
theorem trunF_inv (fuel : Nat) (ops : List TOp) :
    ∀ (env : List OpenDim) (t : TensorArgument),
    t._value.isSome = true → t.default_value = some TVal.srcRef →
    (trunF fuel ops env t).2.1._value.isSome = true ∧
    (trunF fuel ops env t).2.1.default_value = some TVal.srcRef := by
  induction ops with
  | nil => intro env t h1 h2; exact ⟨h1, h2⟩
  | cons op ops ih =>
    intro env t h1 h2
    cases op with
    | verifyOp v =>
      rcases hv : TensorArgument.verifyF env t v fuel with _ | p
      · simpa [trunF, hv] using And.intro h1 h2
      · rcases p with ⟨env1, t1, b⟩
        have hp := tverifyF_preserves env t v fuel env1 t1 b hv h1
        have hr := ih env1 t1 hp.1 (hp.2.trans h2)
        simpa [trunF, hv] using hr
    | resetOp =>
      have h1' : (t.reset)._value.isSome = true := by
        simp [TensorArgument.reset, h2]
      exact ih env t.reset h1' h2

/-- Claim C10: a `TensorArgument` is `ready` from construction onward:
`_value` is initialised to the argument's own source, and after any
sequence of `verify`/`reset` operations --- whether it completes or is
aborted by an exception raised in a dimension's `verify` --- the
argument's `_value` is still held (so `ready` is true) and `reset`
restores the self-referential source default; `verify` never stores
`None`. -/
theorem tensor_always_ready (fuel : Nat) (ops : List TOp)
    (env : List OpenDim) (n : String) (src : TensorSource) (dt : String) :
    (TensorArgument.init n src dt)._value = some TVal.srcRef ∧
    (trunF fuel ops env (TensorArgument.init n src dt)).2.1.ready
      = true ∧
    ((trunF fuel ops env (TensorArgument.init n src dt)).2.1.reset)._value
      = some TVal.srcRef := by
  have h := trunF_inv fuel ops env (TensorArgument.init n src dt) rfl rfl
  exact ⟨rfl, h.1, by simp [TensorArgument.reset, h.2]⟩
